import Mathlib

/-!
Shallow embedding of the authoritative game server in server/server.js:
world state, physics and rules engine, session registry, input gateway,
and the per-tick simulation phases.  Continuous quantities are modelled
over the real numbers; session bookkeeping (roles, timestamps, rate
counters) is modelled over decidable types.
-/

namespace Strikers

/-- Session roles: the strings "p1", "p2", "spec" of the source. -/
inductive Role
  | p1
  | p2
  | spec
deriving DecidableEq, Repr

/-- Kick kinds: the strings "shoot" and "pass" of the source. -/
inductive KickKind
  | shoot
  | pass
deriving DecidableEq, Repr

/-- `const FIELD = { w: 40, h: 24 }`. -/
structure Field where
  w : ℝ
  h : ℝ

noncomputable def FIELD : Field := { w := 40, h := 24 }

/-- `const GOAL = { halfH: 4.2 }`. -/
structure Goal where
  halfH : ℝ

noncomputable def GOAL : Goal := { halfH := 4.2 }

/-- `const MATCH_DUR = 6 * 60`. -/
noncomputable def MATCH_DUR : ℝ := 6 * 60

/-- `const STYLE = { speed: 7.1, kickShoot: 16.0, kickPass: 10.0, control: 1.0 }`. -/
structure Style where
  speed : ℝ
  kickShoot : ℝ
  kickPass : ℝ
  control : ℝ

noncomputable def STYLE : Style := { speed := 7.1, kickShoot := 16.0, kickPass := 10.0, control := 1.0 }

/-- `const MAX_INPUT_PER_SEC = 30`. -/
def MAX_INPUT_PER_SEC : ℕ := 30

/-- `const SESSION_TTL_MS = 35_000`. -/
def SESSION_TTL_MS : ℕ := 35000

/-- `const clamp = (v, a, b) => Math.max(a, Math.min(b, v))`. -/
def clamp {α : Type} [LinearOrder α] (v a b : α) : α := max a (min b v)

/-- One player body of the world state (`game.players.p1` / `game.players.p2`). -/
structure Player where
  name : String
  x : ℝ
  z : ℝ
  vx : ℝ
  vz : ℝ
  rot : ℝ
  hasBall : Bool

/-- The ball body (`game.ball`). -/
structure Ball where
  x : ℝ
  z : ℝ
  vx : ℝ
  vz : ℝ

/-- The score pair (`game.score`). -/
structure Score where
  p1 : ℕ
  p2 : ℕ
deriving DecidableEq

/-- The two player records (`game.players`). -/
structure Players where
  p1 : Player
  p2 : Player

/-- The world state (`const game = {...}`). -/
structure Game where
  t : ℝ
  matchLeft : ℝ
  score : Score
  players : Players
  ball : Ball

/-- The initial world state, lines 49-58 of the source. -/
noncomputable def initGame : Game :=
  { t := 0
    matchLeft := MATCH_DUR
    score := { p1 := 0, p2 := 0 }
    players :=
      { p1 := { name := "P1", x := -10, z := 0, vx := 0, vz := 0, rot := 0, hasBall := false }
        p2 := { name := "P2", x := 10, z := 0, vx := 0, vz := 0, rot := Real.pi, hasBall := false } }
    ball := { x := 0, z := 0, vx := 0, vz := 0 } }

/-- A pending control vector (`session.input`). -/
structure Input where
  moveX : ℝ
  moveZ : ℝ
  sprint : Bool
  shoot : Bool
  pass : Bool

/-- A session record: `{ role, name, input, sseRes, lastSeen, rateSec, rateCount }`.
The attached stream handle is modelled by its presence bit. -/
structure Session where
  role : Role
  name : String
  input : Input
  hasStream : Bool
  lastSeen : ℕ
  rateSec : ℕ
  rateCount : ℕ

/-- The session registry: insertion-ordered token-to-session map. -/
abbrev Registry := List (String × Session)

/-- `Map.set` semantics: replace the value at an existing key, else append. -/
def mapSet (reg : Registry) (k : String) (v : Session) : Registry :=
  if reg.any (fun p => p.1 == k) then
    reg.map (fun p => if p.1 == k then (k, v) else p)
  else reg ++ [(k, v)]

/-- The population counts returned by `countRoles()`. -/
structure RoleCount where
  p1 : ℕ
  p2 : ℕ
  spec : ℕ
  total : ℕ
deriving DecidableEq

/-- `countRoles()`: tally of sessions per role, plus the registry size. -/
def countRoles (reg : Registry) : RoleCount :=
  { p1 := reg.countP (fun p => p.2.role == Role.p1)
    p2 := reg.countP (fun p => p.2.role == Role.p2)
    spec := reg.countP (fun p => p.2.role != Role.p1 && p.2.role != Role.p2)
    total := reg.length }

/-- `pickRole()`: primary if unoccupied, else secondary if unoccupied, else observer. -/
def pickRole (reg : Registry) : Role :=
  if (countRoles reg).p1 = 0 then Role.p1
  else if (countRoles reg).p2 = 0 then Role.p2
  else Role.spec

/-- `resetKickoff(kickoff)`: fixed kickoff layout, ball nudged toward the
side that conceded (`kickoff === "p1" ? -0.2 : 0.2`). -/
noncomputable def resetKickoff (g : Game) (kickoff : Role) : Game :=
  { g with
    players :=
      { p1 := { g.players.p1 with x := -10, z := 0, vx := 0, vz := 0, hasBall := false }
        p2 := { g.players.p2 with x := 10, z := 0, vx := 0, vz := 0, hasBall := false } }
    ball := { x := 0, z := 0, vx := if kickoff = Role.p1 then -0.2 else 0.2, vz := 0 } }

/-- `Math.atan2(y, x)`: the argument of the point `(x, y)`. -/
noncomputable def atan2 (y x : ℝ) : ℝ := Complex.arg ⟨x, y⟩

open Classical in
/-- `applyMove(p, inp, dt)`: clamp, conditional renormalization, sprint
boost, velocity assignment, clamped position integration, facing update. -/
noncomputable def applyMove (p : Player) (inp : Input) (dt : ℝ) : Player :=
  let mx := clamp inp.moveX (-1) 1
  let mz := clamp inp.moveZ (-1) 1
  let l := Real.sqrt (mx ^ 2 + mz ^ 2)
  let nx := if 1 < l then mx / l else mx
  let nz := if 1 < l then mz / l else mz
  let sprint := inp.sprint && (if 0.05 < l then true else false)
  let sp := STYLE.speed * (if sprint then 1.35 else 1.0)
  let vx := nx * sp
  let vz := nz * sp
  { p with
    x := clamp (p.x + vx * dt) (-(FIELD.w / 2)) (FIELD.w / 2)
    z := clamp (p.z + vz * dt) (-(FIELD.h / 2)) (FIELD.h / 2)
    vx := vx
    vz := vz
    rot := if 0.1 < Real.sqrt (vx ^ 2 + vz ^ 2) then atan2 vx vz else p.rot }

open Classical in
/-- `updatePossession()`: radius test for each player, exclusivity
arbitration with the `d1 <= d2` tie-break, and the spring pull of the
ball toward a point in front of the owner. -/
noncomputable def updatePossession (g : Game) : Game :=
  let b := g.ball
  let q1 := g.players.p1
  let q2 := g.players.p2
  let d1 := Real.sqrt ((b.x - q1.x) ^ 2 + (b.z - q1.z) ^ 2)
  let d2 := Real.sqrt ((b.x - q2.x) ^ 2 + (b.z - q2.z) ^ 2)
  let r := 1.05 * STYLE.control
  let h1 : Bool := if d1 < r then true else false
  let h2 : Bool := if d2 < r then true else false
  let hb : Bool × Bool :=
    if h1 && h2 then (if d1 ≤ d2 then (true, false) else (false, true)) else (h1, h2)
  let q1 := { q1 with hasBall := hb.1 }
  let q2 := { q2 with hasBall := hb.2 }
  let owner : Option Player :=
    if q1.hasBall then some q1 else if q2.hasBall then some q2 else none
  let ball :=
    match owner with
    | some o =>
        let fx := Real.sin o.rot
        let fz := Real.cos o.rot
        let tx := o.x + fx * 0.9
        let tz := o.z + fz * 0.9
        { b with
          vx := b.vx + (tx - b.x) * 16 * STYLE.control
          vz := b.vz + (tz - b.z) * 16 * STYLE.control }
    | none => b
  { g with players := { p1 := q1, p2 := q2 }, ball := ball }

/-- `kick(p, kind)`: only honored when the player possesses the ball;
clears possession and imparts an impulse along the facing direction. -/
noncomputable def kick (p : Player) (b : Ball) (kind : KickKind) : Player × Ball :=
  if p.hasBall then
    let fx := Real.sin p.rot
    let fz := Real.cos p.rot
    let power := if kind = KickKind.pass then STYLE.kickPass else STYLE.kickShoot
    ({ p with hasBall := false },
     { b with vx := b.vx + fx * power, vz := b.vz + fz * power })
  else (p, b)

/-- Friction decay and position integration of `updateBall` (lines 160-164). -/
noncomputable def ballIntegrate (b : Ball) (dt : ℝ) : Ball :=
  let f := (0.22 : ℝ) ^ dt
  let vx := b.vx * f
  let vz := b.vz * f
  { x := b.x + vx * dt, z := b.z + vz * dt, vx := vx, vz := vz }

open Classical in
/-- Reflection off the two long edges (lines 168-169). -/
noncomputable def bounceZ (b : Ball) : Ball :=
  let b1 := if b.z < -(FIELD.h / 2) then { b with z := -(FIELD.h / 2), vz := |b.vz| * 0.8 } else b
  if FIELD.h / 2 < b1.z then { b1 with z := FIELD.h / 2, vz := -|b1.vz| * 0.8 } else b1

open Classical in
/-- Reflection off the two short edges outside the goal band (lines 171-172). -/
noncomputable def bounceX (b : Ball) : Ball :=
  let b1 :=
    if b.x < -(FIELD.w / 2) ∧ GOAL.halfH < |b.z| then
      { b with x := -(FIELD.w / 2), vx := |b.vx| * 0.8 }
    else b
  if FIELD.w / 2 < b1.x ∧ GOAL.halfH < |b1.z| then
    { b1 with x := FIELD.w / 2, vx := -|b1.vx| * 0.8 }
  else b1

open Classical in
/-- `updateBall(dt)`: friction, integration, wall reflection, and the two
goal checks with score increment and kickoff reset. -/
noncomputable def updateBall (g : Game) (dt : ℝ) : Game :=
  let b := bounceX (bounceZ (ballIntegrate g.ball dt))
  if b.x < -(FIELD.w / 2) ∧ |b.z| ≤ GOAL.halfH then
    resetKickoff { g with score := { g.score with p2 := g.score.p2 + 1 } } Role.p1
  else if FIELD.w / 2 < b.x ∧ |b.z| ≤ GOAL.halfH then
    resetKickoff { g with score := { g.score with p1 := g.score.p1 + 1 } } Role.p2
  else { g with ball := b }

/-- Result of the input gateway (`/input` handler). -/
inductive InputResult
  | ok
  | unauthenticated
  | rateLimited
deriving DecidableEq, Repr

/-- The `/input` handler body once the session is found, lines 248-266:
update `lastSeen`, silently accept observers, roll the per-second rate
window, count the call, reject past the cap, else merge the clamped
control vector. -/
noncomputable def submitInput (s : Session) (nowMs : ℕ) (body : Input) : Session × InputResult :=
  let s1 := { s with lastSeen := nowMs }
  if s1.role ≠ Role.p1 ∧ s1.role ≠ Role.p2 then (s1, InputResult.ok)
  else
    let sec := nowMs / 1000
    let s2 := if s1.rateSec ≠ sec then { s1 with rateSec := sec, rateCount := 0 } else s1
    let s3 := { s2 with rateCount := s2.rateCount + 1 }
    if MAX_INPUT_PER_SEC < s3.rateCount then (s3, InputResult.rateLimited)
    else
      ({ s3 with
          input :=
            { moveX := clamp body.moveX (-1) 1
              moveZ := clamp body.moveZ (-1) 1
              sprint := body.sprint
              shoot := body.shoot
              pass := body.pass } },
       InputResult.ok)

/-- The session state after `n` sequential `/input` calls with the same
wall clock and body. -/
noncomputable def callN (s : Session) (nowMs : ℕ) (body : Input) : ℕ → Session
  | 0 => s
  | n + 1 => (submitInput (callN s nowMs body n) nowMs body).1

/-- The result of the `(n+1)`-th sequential `/input` call. -/
noncomputable def resultN (s : Session) (nowMs : ℕ) (body : Input) (n : ℕ) : InputResult :=
  (submitInput (callN s nowMs body n) nowMs body).2

/-- Result of the `/join` handler. -/
inductive JoinResult
  | forbidden
  | ok (token : String) (role : Role)
deriving DecidableEq, Repr

/-- The `/join` handler, lines 190-213: key gate, role by scarcity, fresh
session record, name write-through into the world state. -/
noncomputable def join (reg : Registry) (g : Game) (gameKey name key token : String)
    (nowMs : ℕ) : Registry × Game × JoinResult :=
  if gameKey ≠ "" ∧ key ≠ gameKey then (reg, g, JoinResult.forbidden)
  else
    let name14 := name.take 14
    let role := pickRole reg
    let sess : Session :=
      { role := role
        name := name14
        input := { moveX := 0, moveZ := 0, sprint := false, shoot := false, pass := false }
        hasStream := false
        lastSeen := nowMs
        rateSec := nowMs / 1000
        rateCount := 0 }
    let reg2 := mapSet reg token sess
    let g2 :=
      if role = Role.p1 then
        { g with players := { g.players with p1 := { g.players.p1 with name := name14 } } }
      else if role = Role.p2 then
        { g with players := { g.players with p2 := { g.players.p2 with name := name14 } } }
      else g
    (reg2, g2, JoinResult.ok token role)

/-- Whether a session past the idle TTL (`now - s.lastSeen > SESSION_TTL_MS`). -/
def isExpired (nowMs : ℕ) (s : Session) : Bool :=
  decide (SESSION_TTL_MS < nowMs - s.lastSeen)

/-- Whether a role is a controlling role (`s.role === "p1" || s.role === "p2"`). -/
def isControlling (r : Role) : Bool :=
  r == Role.p1 || r == Role.p2

/-- The idle-session sweep of the tick, lines 288-296: the surviving
registry and whether a controlling-role session was removed. -/
def expireSweep (reg : Registry) (nowMs : ℕ) : Registry × Bool :=
  (reg.filter (fun ts => !isExpired nowMs ts.2),
   reg.any (fun ts => isExpired nowMs ts.2 && isControlling ts.2.role))

/-- Lines 287-297 of the tick: sweep idle sessions and reset to kickoff
if a controlling-role session was removed. -/
noncomputable def expirePhase (g : Game) (reg : Registry) (nowMs : ℕ) : Game × Registry :=
  let sw := expireSweep reg nowMs
  (if sw.2 then resetKickoff g Role.p1 else g, sw.1)

/-- The kick-resolution block of the tick, lines 314-323: consume each
present controlling session's shoot then pass request through `kick`,
then clear both request flags unconditionally. -/
noncomputable def kickPhase (g : Game) (p1S p2S : Option Session) :
    Game × Option Session × Option Session :=
  let step1 : Game × Option Session :=
    match p1S with
    | some s =>
        let pb := if s.input.shoot then kick g.players.p1 g.ball KickKind.shoot
          else (g.players.p1, g.ball)
        let pb2 := if s.input.pass then kick pb.1 pb.2 KickKind.pass else pb
        ({ g with players := { g.players with p1 := pb2.1 }, ball := pb2.2 },
         some { s with input := { s.input with shoot := false, pass := false } })
    | none => (g, none)
  let g1 := step1.1
  let step2 : Game × Option Session :=
    match p2S with
    | some s =>
        let pb := if s.input.shoot then kick g1.players.p2 g1.ball KickKind.shoot
          else (g1.players.p2, g1.ball)
        let pb2 := if s.input.pass then kick pb.1 pb.2 KickKind.pass else pb
        ({ g1 with players := { g1.players with p2 := pb2.1 }, ball := pb2.2 },
         some { s with input := { s.input with shoot := false, pass := false } })
    | none => (g1, none)
  (step2.1, step1.2, step2.2)

/-- `!!s?.sseRes` for an optional session. -/
def hasStreamOpt : Option Session → Bool
  | some s => s.hasStream
  | none => false

/-- The simulation segment of the tick, lines 306-326: `matchLeft`
countdown gated on both streams, movement, possession arbitration, kick
resolution, ball dynamics, and the `game.t` advance. -/
noncomputable def simPhase (g : Game) (p1S p2S : Option Session) (dt : ℝ) :
    Game × Option Session × Option Session :=
  let hasTwo := hasStreamOpt p1S && hasStreamOpt p2S
  let g1 := if hasTwo then { g with matchLeft := max 0 (g.matchLeft - dt) } else g
  let g2 :=
    match p1S with
    | some s => { g1 with players := { g1.players with p1 := applyMove g1.players.p1 s.input dt } }
    | none => g1
  let g3 :=
    match p2S with
    | some s => { g2 with players := { g2.players with p2 := applyMove g2.players.p2 s.input dt } }
    | none => g2
  let g4 := updatePossession g3
  let k := kickPhase g4 p1S p2S
  let g5 := updateBall k.1 dt
  ({ g5 with t := g5.t + dt }, k.2)

/-! ## Helper lemmas -/

lemma updatePossession_excl (g : Game) :
    (updatePossession g).players.p1.hasBall = false ∨
    (updatePossession g).players.p2.hasBall = false := by
  by_cases h1 : Real.sqrt ((g.ball.x - g.players.p1.x) ^ 2 + (g.ball.z - g.players.p1.z) ^ 2) <
      1.05 * STYLE.control <;>
  by_cases h2 : Real.sqrt ((g.ball.x - g.players.p2.x) ^ 2 + (g.ball.z - g.players.p2.z) ^ 2) <
      1.05 * STYLE.control <;>
  by_cases hle : Real.sqrt ((g.ball.x - g.players.p1.x) ^ 2 + (g.ball.z - g.players.p1.z) ^ 2) ≤
      Real.sqrt ((g.ball.x - g.players.p2.x) ^ 2 + (g.ball.z - g.players.p2.z) ^ 2) <;>
  simp [updatePossession, h1, h2, hle]

lemma kick_hasBall_mono (p : Player) (b : Ball) (k : KickKind)
    (h : (kick p b k).1.hasBall = true) : p.hasBall = true := by
  by_cases hb : p.hasBall <;> simp [kick, hb] at h ⊢

lemma kickPhase_p1_mono (g : Game) (p1S p2S : Option Session)
    (h : (kickPhase g p1S p2S).1.players.p1.hasBall = true) :
    g.players.p1.hasBall = true := by
  cases p1S with
  | none => cases p2S <;> simpa [kickPhase] using h
  | some s1 =>
      cases p2S <;>
        (simp only [kickPhase] at h
         split_ifs at h <;>
          first
            | exact h
            | exact kick_hasBall_mono _ _ _ h
            | exact kick_hasBall_mono _ _ _ (kick_hasBall_mono _ _ _ h))

lemma kickPhase_p2_mono (g : Game) (p1S p2S : Option Session)
    (h : (kickPhase g p1S p2S).1.players.p2.hasBall = true) :
    g.players.p2.hasBall = true := by
  cases p2S with
  | none => cases p1S <;> simpa [kickPhase] using h
  | some s2 =>
      cases p1S <;>
        (simp only [kickPhase] at h
         split_ifs at h <;>
          first
            | exact h
            | exact kick_hasBall_mono _ _ _ h
            | exact kick_hasBall_mono _ _ _ (kick_hasBall_mono _ _ _ h))

lemma updateBall_players (g : Game) (dt : ℝ) :
    (updateBall g dt).players = g.players ∨
    ((updateBall g dt).players.p1.hasBall = false ∧
     (updateBall g dt).players.p2.hasBall = false) := by
  unfold updateBall
  dsimp only
  split_ifs <;> simp [resetKickoff]

lemma updatePossession_t (g : Game) : (updatePossession g).t = g.t := rfl

lemma updatePossession_matchLeft (g : Game) :
    (updatePossession g).matchLeft = g.matchLeft := rfl

lemma kickPhase_t (g : Game) (p1S p2S : Option Session) :
    (kickPhase g p1S p2S).1.t = g.t := by
  cases p1S <;> cases p2S <;> rfl

lemma kickPhase_matchLeft (g : Game) (p1S p2S : Option Session) :
    (kickPhase g p1S p2S).1.matchLeft = g.matchLeft := by
  cases p1S <;> cases p2S <;> rfl

lemma updateBall_t (g : Game) (dt : ℝ) : (updateBall g dt).t = g.t := by
  unfold updateBall
  dsimp only
  split_ifs <;> rfl

lemma updateBall_matchLeft (g : Game) (dt : ℝ) :
    (updateBall g dt).matchLeft = g.matchLeft := by
  unfold updateBall
  dsimp only
  split_ifs <;> rfl

lemma simPhase_t (g : Game) (p1S p2S : Option Session) (dt : ℝ) :
    (simPhase g p1S p2S dt).1.t = g.t + dt := by
  unfold simPhase
  cases p1S <;> cases p2S <;>
    simp [updateBall_t, kickPhase_t, updatePossession_t] <;>
    split_ifs <;> simp [updateBall_t, kickPhase_t, updatePossession_t]

lemma excl_kickPhase (g : Game) (p1S p2S : Option Session)
    (h : g.players.p1.hasBall = false ∨ g.players.p2.hasBall = false) :
    (kickPhase g p1S p2S).1.players.p1.hasBall = false ∨
    (kickPhase g p1S p2S).1.players.p2.hasBall = false := by
  rcases h with h | h
  · by_cases hp : (kickPhase g p1S p2S).1.players.p1.hasBall = true
    · exact absurd (kickPhase_p1_mono g p1S p2S hp) (by simp [h])
    · left
      simpa using hp
  · by_cases hp : (kickPhase g p1S p2S).1.players.p2.hasBall = true
    · exact absurd (kickPhase_p2_mono g p1S p2S hp) (by simp [h])
    · right
      simpa using hp

lemma excl_updateBall (g : Game) (dt : ℝ)
    (h : g.players.p1.hasBall = false ∨ g.players.p2.hasBall = false) :
    (updateBall g dt).players.p1.hasBall = false ∨
    (updateBall g dt).players.p2.hasBall = false := by
  rcases updateBall_players g dt with hp | hp
  · rw [hp]
    exact h
  · exact Or.inl hp.1

open Classical in
lemma simPhase_matchLeft_frozen (g : Game) (p1S p2S : Option Session) (dt : ℝ)
    (h : (hasStreamOpt p1S && hasStreamOpt p2S) = false) :
    (simPhase g p1S p2S dt).1.matchLeft = g.matchLeft := by
  unfold simPhase
  dsimp only
  rw [if_neg (by simp [h])]
  cases p1S <;> cases p2S <;>
    simp [updateBall_matchLeft, kickPhase_matchLeft, updatePossession_matchLeft]

/-! ## Claim theorems -/

/-- C1: after possession arbitration in any tick, at most one of the two
player records has its possession flag true (both may be false); after a
full tick of the simulation phase the same exclusivity holds, so no
reachable state of the tick loop has both players possessing the ball. -/
theorem possession_exclusive :
    (∀ g : Game, (updatePossession g).players.p1.hasBall = false ∨
      (updatePossession g).players.p2.hasBall = false) ∧
    (∀ (g : Game) (p1S p2S : Option Session) (dt : ℝ),
      (simPhase g p1S p2S dt).1.players.p1.hasBall = false ∨
      (simPhase g p1S p2S dt).1.players.p2.hasBall = false) := by
  refine ⟨updatePossession_excl, ?_⟩
  intro g p1S p2S dt
  unfold simPhase
  dsimp only
  exact excl_updateBall _ _ (excl_kickPhase _ _ _ (updatePossession_excl _))

/-- C2, counterexample: a tick executed with no controlling session at all
still advances the world-state match clock `game.t` by `dt`, so the claim
that such a tick leaves the match clock unchanged is false. -/
theorem matchClock_advances_counterexample :
    (simPhase initGame none none 1).1.t ≠ initGame.t := by
  rw [simPhase_t]
  norm_num [initGame]

/-- C2, amended: the match clock `game.t` advances by `dt` on every tick
regardless of session liveness; it is the remaining-time counter
`matchLeft` that is left unchanged by a tick executed while fewer than two
controlling sessions have an attached stream. -/
theorem matchRemaining_frozen (g : Game) (p1S p2S : Option Session) (dt : ℝ)
    (h : (hasStreamOpt p1S && hasStreamOpt p2S) = false) :
    (simPhase g p1S p2S dt).1.matchLeft = g.matchLeft ∧
    (simPhase g p1S p2S dt).1.t = g.t + dt :=
  ⟨simPhase_matchLeft_frozen g p1S p2S dt h, simPhase_t g p1S p2S dt⟩

/-- Witness for the amended C2 at a concrete tick with no sessions. -/
theorem matchRemaining_frozen_witness :
    (hasStreamOpt (none : Option Session) && hasStreamOpt (none : Option Session)) = false ∧
    ((simPhase initGame none none 1).1.matchLeft = initGame.matchLeft ∧
     (simPhase initGame none none 1).1.t = initGame.t + 1) :=
  ⟨rfl, matchRemaining_frozen initGame none none 1 rfl⟩

/-- C9: when both players are inside the control radius, the strictly
closer player keeps possession and the other flag is cleared; an exact
distance tie goes to the first-checked player (primary). -/
theorem possession_tiebreak (g : Game) (d1 d2 : ℝ)
    (hd1 : d1 = Real.sqrt ((g.ball.x - g.players.p1.x) ^ 2 + (g.ball.z - g.players.p1.z) ^ 2))
    (hd2 : d2 = Real.sqrt ((g.ball.x - g.players.p2.x) ^ 2 + (g.ball.z - g.players.p2.z) ^ 2))
    (h1 : d1 < 1.05 * STYLE.control) (h2 : d2 < 1.05 * STYLE.control) :
    (d1 < d2 →
      (updatePossession g).players.p1.hasBall = true ∧
      (updatePossession g).players.p2.hasBall = false) ∧
    (d1 = d2 →
      (updatePossession g).players.p1.hasBall = true ∧
      (updatePossession g).players.p2.hasBall = false) ∧
    (d2 < d1 →
      (updatePossession g).players.p1.hasBall = false ∧
      (updatePossession g).players.p2.hasBall = true) := by
  subst hd1
  subst hd2
  refine ⟨fun hlt => ?_, fun heq => ?_, fun hgt => ?_⟩
  · simp [updatePossession, h1, h2, le_of_lt hlt]
  · simp [updatePossession, h1, h2, le_of_eq heq]
  · simp [updatePossession, h1, h2, not_le.mpr hgt]

/-- Concrete state for the C9 witness: ball at the origin, primary at
distance 0.6, secondary at distance 0.8, both inside the radius 1.05. -/
noncomputable def gNine : Game :=
  { t := 0
    matchLeft := 360
    score := { p1 := 0, p2 := 0 }
    players :=
      { p1 := { name := "P1", x := 0.6, z := 0, vx := 0, vz := 0, rot := 0, hasBall := false }
        p2 := { name := "P2", x := 0, z := 0.8, vx := 0, vz := 0, rot := 0, hasBall := false } }
    ball := { x := 0, z := 0, vx := 0, vz := 0 } }

/-- Witness for C9: at `gNine` the strictly closer primary keeps the ball. -/
theorem possession_tiebreak_witness :
    (0.6 : ℝ) < 0.8 ∧
    ((updatePossession gNine).players.p1.hasBall = true ∧
     (updatePossession gNine).players.p2.hasBall = false) := by
  have hd1 : (0.6 : ℝ) =
      Real.sqrt ((gNine.ball.x - gNine.players.p1.x) ^ 2 +
        (gNine.ball.z - gNine.players.p1.z) ^ 2) := by
    have hv : ((gNine.ball.x - gNine.players.p1.x) ^ 2 +
        (gNine.ball.z - gNine.players.p1.z) ^ 2) = (0.6 : ℝ) ^ 2 := by
      norm_num [gNine]
    rw [hv, Real.sqrt_sq (by norm_num : (0 : ℝ) ≤ 0.6)]
  have hd2 : (0.8 : ℝ) =
      Real.sqrt ((gNine.ball.x - gNine.players.p2.x) ^ 2 +
        (gNine.ball.z - gNine.players.p2.z) ^ 2) := by
    have hv : ((gNine.ball.x - gNine.players.p2.x) ^ 2 +
        (gNine.ball.z - gNine.players.p2.z) ^ 2) = (0.8 : ℝ) ^ 2 := by
      norm_num [gNine]
    rw [hv, Real.sqrt_sq (by norm_num : (0 : ℝ) ≤ 0.8)]
  refine ⟨by norm_num, ?_⟩
  exact (possession_tiebreak gNine 0.6 0.8 hd1 hd2
    (by norm_num [STYLE]) (by norm_num [STYLE])).1 (by norm_num)

/-- C6: a kick request by a player who does not possess the ball changes
neither the ball nor the player, and the kick resolution block clears
both request flags of every present controlling session regardless. -/
theorem kick_unhonored :
    (∀ (p : Player) (b : Ball) (k : KickKind), p.hasBall = false → kick p b k = (p, b)) ∧
    (∀ (g : Game) (p1S p2S : Option Session) (s : Session),
      ((kickPhase g p1S p2S).2.1 = some s → s.input.shoot = false ∧ s.input.pass = false) ∧
      ((kickPhase g p1S p2S).2.2 = some s → s.input.shoot = false ∧ s.input.pass = false)) := by
  constructor
  · intro p b k h
    simp [kick, h]
  · intro g p1S p2S s
    constructor
    · intro hs
      cases p1S with
      | none => cases p2S <;> simp [kickPhase] at hs
      | some s1 =>
          cases p2S <;>
            (simp only [kickPhase, Option.some.injEq] at hs
             rw [← hs]
             exact ⟨rfl, rfl⟩)
    · intro hs
      cases p2S with
      | none => cases p1S <;> simp [kickPhase] at hs
      | some s2 =>
          cases p1S <;>
            (simp only [kickPhase, Option.some.injEq] at hs
             rw [← hs]
             exact ⟨rfl, rfl⟩)

/-- Concrete non-possessing player and ball for the C6 witness. -/
noncomputable def pSix : Player :=
  { name := "W", x := 0, z := 0, vx := 0, vz := 0, rot := 0, hasBall := false }

/-- Concrete ball for the C6 witness. -/
noncomputable def bSix : Ball := { x := 0, z := 0, vx := 0, vz := 0 }

/-- Witness for C6: a shoot by the non-possessing `pSix` is a no-op. -/
theorem kick_unhonored_witness :
    pSix.hasBall = false ∧ kick pSix bSix KickKind.shoot = (pSix, bSix) :=
  ⟨rfl, kick_unhonored.1 pSix bSix KickKind.shoot rfl⟩

/-- C10: any possessing controlling player with both request flags set
gets only the shoot impulse (power 16.0): the shoot consumes possession,
the pass finds no possession and is not honored, and both flags end the
block cleared; stated for the primary and the secondary alike. -/
theorem shoot_over_pass :
    (∀ (g : Game) (s : Session) (p2S : Option Session),
      s.input.shoot = true → s.input.pass = true →
      g.players.p1.hasBall = true → g.players.p2.hasBall = false →
      (kickPhase g (some s) p2S).1.ball.vx =
        g.ball.vx + Real.sin g.players.p1.rot * STYLE.kickShoot ∧
      (kickPhase g (some s) p2S).1.ball.vz =
        g.ball.vz + Real.cos g.players.p1.rot * STYLE.kickShoot ∧
      (kickPhase g (some s) p2S).1.players.p1.hasBall = false ∧
      (∀ s1, (kickPhase g (some s) p2S).2.1 = some s1 →
        s1.input.shoot = false ∧ s1.input.pass = false)) ∧
    (∀ (g : Game) (s : Session) (p1S : Option Session),
      s.input.shoot = true → s.input.pass = true →
      g.players.p2.hasBall = true → g.players.p1.hasBall = false →
      (kickPhase g p1S (some s)).1.ball.vx =
        g.ball.vx + Real.sin g.players.p2.rot * STYLE.kickShoot ∧
      (kickPhase g p1S (some s)).1.ball.vz =
        g.ball.vz + Real.cos g.players.p2.rot * STYLE.kickShoot ∧
      (kickPhase g p1S (some s)).1.players.p2.hasBall = false ∧
      (∀ s2, (kickPhase g p1S (some s)).2.2 = some s2 →
        s2.input.shoot = false ∧ s2.input.pass = false)) := by
  constructor
  · intro g s p2S hs hp h1 h2
    cases p2S <;>
      (refine ⟨?_, ?_, ?_, ?_⟩ <;> simp [kickPhase, kick, hs, hp, h1, h2])
  · intro g s p1S hs hp h1 h2
    cases p1S <;>
      (refine ⟨?_, ?_, ?_, ?_⟩ <;> simp [kickPhase, kick, hs, hp, h1, h2])

/-- Concrete state for the C10 witness: primary possesses, facing 0. -/
noncomputable def gTen : Game :=
  { t := 0
    matchLeft := 360
    score := { p1 := 0, p2 := 0 }
    players :=
      { p1 := { name := "P1", x := 0, z := 0, vx := 0, vz := 0, rot := 0, hasBall := true }
        p2 := { name := "P2", x := 5, z := 5, vx := 0, vz := 0, rot := 0, hasBall := false } }
    ball := { x := 0.5, z := 0, vx := 0, vz := 0 } }

/-- Concrete state for the C10 witness, mirrored: secondary possesses. -/
noncomputable def gTenB : Game :=
  { t := 0
    matchLeft := 360
    score := { p1 := 0, p2 := 0 }
    players :=
      { p1 := { name := "P1", x := -5, z := 5, vx := 0, vz := 0, rot := 0, hasBall := false }
        p2 := { name := "P2", x := 0, z := 0, vx := 0, vz := 0, rot := 0, hasBall := true } }
    ball := { x := 0.5, z := 0, vx := 0, vz := 0 } }

/-- Concrete session for the C10 witness: both request flags set. -/
noncomputable def sTen : Session :=
  { role := Role.p1
    name := "P1"
    input := { moveX := 0, moveZ := 0, sprint := false, shoot := true, pass := true }
    hasStream := true
    lastSeen := 0
    rateSec := 0
    rateCount := 0 }

/-- Witness for C10 at the concrete possessing states `gTen` (primary)
and `gTenB` (secondary). -/
theorem shoot_over_pass_witness :
    sTen.input.shoot = true ∧
    ((kickPhase gTen (some sTen) none).1.ball.vx =
      gTen.ball.vx + Real.sin gTen.players.p1.rot * STYLE.kickShoot ∧
     (kickPhase gTen (some sTen) none).1.ball.vz =
      gTen.ball.vz + Real.cos gTen.players.p1.rot * STYLE.kickShoot ∧
     (kickPhase gTen (some sTen) none).1.players.p1.hasBall = false ∧
     (∀ s1, (kickPhase gTen (some sTen) none).2.1 = some s1 →
       s1.input.shoot = false ∧ s1.input.pass = false)) ∧
    ((kickPhase gTenB none (some sTen)).1.ball.vx =
      gTenB.ball.vx + Real.sin gTenB.players.p2.rot * STYLE.kickShoot ∧
     (kickPhase gTenB none (some sTen)).1.ball.vz =
      gTenB.ball.vz + Real.cos gTenB.players.p2.rot * STYLE.kickShoot ∧
     (kickPhase gTenB none (some sTen)).1.players.p2.hasBall = false ∧
     (∀ s2, (kickPhase gTenB none (some sTen)).2.2 = some s2 →
       s2.input.shoot = false ∧ s2.input.pass = false)) :=
  ⟨rfl, shoot_over_pass.1 gTen sTen none rfl rfl rfl rfl,
   shoot_over_pass.2 gTenB sTen none rfl rfl rfl rfl⟩

lemma submitInput_controlling (s : Session) (nowMs : ℕ) (body : Input)
    (hrole : s.role = Role.p1 ∨ s.role = Role.p2)
    (hsec : s.rateSec = nowMs / 1000) :
    submitInput s nowMs body =
      if MAX_INPUT_PER_SEC < s.rateCount + 1 then
        ({ s with lastSeen := nowMs, rateCount := s.rateCount + 1 }, InputResult.rateLimited)
      else
        ({ s with
            lastSeen := nowMs
            rateCount := s.rateCount + 1
            input :=
              { moveX := clamp body.moveX (-1) 1
                moveZ := clamp body.moveZ (-1) 1
                sprint := body.sprint
                shoot := body.shoot
                pass := body.pass } },
         InputResult.ok) := by
  unfold submitInput
  rcases hrole with h | h <;> simp [h, hsec]

lemma callN_invariant (s : Session) (nowMs : ℕ) (body : Input)
    (hrole : s.role = Role.p1 ∨ s.role = Role.p2)
    (hsec : s.rateSec = nowMs / 1000) :
    ∀ n, (callN s nowMs body n).role = s.role ∧
      (callN s nowMs body n).rateSec = s.rateSec ∧
      (callN s nowMs body n).rateCount = s.rateCount + n := by
  intro n
  induction n with
  | zero => exact ⟨rfl, rfl, rfl⟩
  | succ n ih =>
      obtain ⟨hr, hsc, hc⟩ := ih
      have hrole2 : (callN s nowMs body n).role = Role.p1 ∨
          (callN s nowMs body n).role = Role.p2 := by rw [hr]; exact hrole
      have hsec2 : (callN s nowMs body n).rateSec = nowMs / 1000 := by rw [hsc]; exact hsec
      simp only [callN]
      rw [submitInput_controlling (callN s nowMs body n) nowMs body hrole2 hsec2]
      split_ifs <;>
        exact ⟨hr, hsc,
          show (callN s nowMs body n).rateCount + 1 = s.rateCount + (n + 1) by omega⟩

/-- C3: for a controlling session whose rate window is the current second
and whose counter is fresh, exactly the first 30 sequential `/input`
calls of that second are accepted; the 31st is rejected with
`rateLimited` and leaves the pending input vector untouched. -/
theorem rate_limit_thirty (s : Session) (nowMs : ℕ) (body : Input)
    (hrole : s.role = Role.p1 ∨ s.role = Role.p2)
    (hsec : s.rateSec = nowMs / 1000) (hcount : s.rateCount = 0) :
    (∀ k, resultN s nowMs body k = InputResult.ok ↔ k < 30) ∧
    resultN s nowMs body 30 = InputResult.rateLimited ∧
    (callN s nowMs body 31).input = (callN s nowMs body 30).input := by
  have inv := callN_invariant s nowMs body hrole hsec
  have hrole2 : ∀ k, (callN s nowMs body k).role = Role.p1 ∨
      (callN s nowMs body k).role = Role.p2 := fun k => by rw [(inv k).1]; exact hrole
  have hsec2 : ∀ k, (callN s nowMs body k).rateSec = nowMs / 1000 :=
    fun k => by rw [(inv k).2.1]; exact hsec
  refine ⟨?_, ?_, ?_⟩
  · intro k
    have hc := (inv k).2.2
    unfold resultN
    rw [submitInput_controlling (callN s nowMs body k) nowMs body (hrole2 k) (hsec2 k)]
    simp only [MAX_INPUT_PER_SEC]
    split_ifs with hk
    · exact iff_of_false (by simp) (by omega)
    · exact iff_of_true rfl (by omega)
  · have hc := (inv 30).2.2
    unfold resultN
    rw [submitInput_controlling (callN s nowMs body 30) nowMs body (hrole2 30) (hsec2 30)]
    simp only [MAX_INPUT_PER_SEC]
    rw [if_pos (show 30 < (callN s nowMs body 30).rateCount + 1 by omega)]
  · have hc := (inv 30).2.2
    have h31 : callN s nowMs body 31 = (submitInput (callN s nowMs body 30) nowMs body).1 := by
      show callN s nowMs body (30 + 1) = _
      simp only [callN]
    rw [h31, submitInput_controlling (callN s nowMs body 30) nowMs body (hrole2 30) (hsec2 30)]
    simp only [MAX_INPUT_PER_SEC]
    rw [if_pos (show 30 < (callN s nowMs body 30).rateCount + 1 by omega)]

/-- The zero control vector. -/
noncomputable def iZero : Input :=
  { moveX := 0, moveZ := 0, sprint := false, shoot := false, pass := false }

/-- Concrete controlling session for the C3 witness: window second 5,
counter 0. -/
noncomputable def sThree : Session :=
  { role := Role.p1
    name := "R"
    input := iZero
    hasStream := true
    lastSeen := 0
    rateSec := 5
    rateCount := 0 }

/-- Witness for C3 at second 5 of the wall clock. -/
theorem rate_limit_thirty_witness :
    sThree.rateSec = 5000 / 1000 ∧
    ((∀ k, resultN sThree 5000 iZero k = InputResult.ok ↔ k < 30) ∧
     resultN sThree 5000 iZero 30 = InputResult.rateLimited ∧
     (callN sThree 5000 iZero 31).input = (callN sThree 5000 iZero 30).input) :=
  ⟨by norm_num [sThree], rate_limit_thirty sThree 5000 iZero (Or.inl rfl) (by norm_num [sThree]) rfl⟩

lemma pickRole_spec (reg : Registry) :
    (pickRole reg = Role.p1 → (countRoles reg).p1 = 0) ∧
    (pickRole reg = Role.p2 → (countRoles reg).p2 = 0) := by
  unfold pickRole
  split_ifs with hc1 hc2 <;> simp_all

lemma countRoles_append_p1 (reg : Registry) (x : String × Session) :
    (countRoles (reg ++ [x])).p1 =
      (countRoles reg).p1 + (if x.2.role = Role.p1 then 1 else 0) := by
  simp only [countRoles, List.countP_append, List.countP_cons, List.countP_nil]
  split_ifs with h <;> simp_all

lemma countRoles_append_p2 (reg : Registry) (x : String × Session) :
    (countRoles (reg ++ [x])).p2 =
      (countRoles reg).p2 + (if x.2.role = Role.p2 then 1 else 0) := by
  simp only [countRoles, List.countP_append, List.countP_cons, List.countP_nil]
  split_ifs with h <;> simp_all

lemma mapSet_fresh (reg : Registry) (k : String) (v : Session)
    (h : ∀ p ∈ reg, p.1 ≠ k) : mapSet reg k v = reg ++ [(k, v)] := by
  unfold mapSet
  rw [if_neg]
  simp only [List.any_eq_true, beq_iff_eq, not_exists, not_and]
  exact h

/-- Three sequential joins into an empty registry (the C7 scenario). -/
noncomputable def scen1 : Registry × Game × JoinResult := join [] initGame "" "A" "" "tokA" 0

/-- Second join of the C7 scenario. -/
noncomputable def scen2 : Registry × Game × JoinResult :=
  join scen1.1 scen1.2.1 "" "B" "" "tokB" 0

/-- Third join of the C7 scenario. -/
noncomputable def scen3 : Registry × Game × JoinResult :=
  join scen2.1 scen2.2.1 "" "C" "" "tokC" 0

/-- C7: role assignment by scarcity: three sequential joins into an empty
registry receive primary, secondary and observer, and a join into any
registry holding at most one session per controlling role still leaves at
most one session per controlling role. -/
theorem join_roles :
    (scen1.2.2 = JoinResult.ok "tokA" Role.p1 ∧
     scen2.2.2 = JoinResult.ok "tokB" Role.p2 ∧
     scen3.2.2 = JoinResult.ok "tokC" Role.spec) ∧
    (∀ (reg : Registry) (g : Game) (gameKey name key token : String) (nowMs : ℕ),
      (countRoles reg).p1 ≤ 1 → (countRoles reg).p2 ≤ 1 →
      (∀ p ∈ reg, p.1 ≠ token) →
      (countRoles (join reg g gameKey name key token nowMs).1).p1 ≤ 1 ∧
      (countRoles (join reg g gameKey name key token nowMs).1).p2 ≤ 1) := by
  constructor
  · exact ⟨rfl, rfl, rfl⟩
  · intro reg g gameKey name key token nowMs h1 h2 hfresh
    unfold join
    dsimp only
    split_ifs with hkey hr1 hr2
    · exact ⟨h1, h2⟩
    all_goals
      dsimp only
      rw [mapSet_fresh reg token _ hfresh, countRoles_append_p1, countRoles_append_p2]
      dsimp only
    · have h0 := (pickRole_spec reg).1 hr1
      simp [hr1]
      omega
    · have h0 := (pickRole_spec reg).2 hr2
      simp [hr2]
      omega
    · rw [if_neg hr1, if_neg hr2]
      omega

/-- Witness for the preservation half of C7 at the empty registry. -/
theorem join_roles_witness :
    ((countRoles ([] : Registry)).p1 ≤ 1 ∧ (countRoles ([] : Registry)).p2 ≤ 1) ∧
    ((countRoles (join [] initGame "" "N" "" "t" 0).1).p1 ≤ 1 ∧
     (countRoles (join [] initGame "" "N" "" "t" 0).1).p2 ≤ 1) :=
  ⟨⟨by simp [countRoles], by simp [countRoles]⟩,
   join_roles.2 [] initGame "" "N" "" "t" 0 (by simp [countRoles]) (by simp [countRoles])
     (by simp)⟩

/-- C8: the per-tick expiry sweep keeps exactly the sessions within the
TTL, and the tick resets the world to kickoff exactly when some removed
session held a controlling role. -/
theorem expiry_reset (g : Game) (reg : Registry) (nowMs : ℕ) :
    (∀ ts, ts ∈ (expirePhase g reg nowMs).2 ↔
      ts ∈ reg ∧ nowMs - ts.2.lastSeen ≤ SESSION_TTL_MS) ∧
    ((∃ ts ∈ reg, SESSION_TTL_MS < nowMs - ts.2.lastSeen ∧
        (ts.2.role = Role.p1 ∨ ts.2.role = Role.p2)) →
      (expirePhase g reg nowMs).1 = resetKickoff g Role.p1) ∧
    ((∀ ts ∈ reg, ¬(SESSION_TTL_MS < nowMs - ts.2.lastSeen ∧
        (ts.2.role = Role.p1 ∨ ts.2.role = Role.p2))) →
      (expirePhase g reg nowMs).1 = g) := by
  refine ⟨?_, ?_, ?_⟩
  · intro ts
    simp [expirePhase, expireSweep, isExpired, List.mem_filter, not_lt]
  · rintro ⟨ts, hmem, hexp, hrole⟩
    have hany : (expireSweep reg nowMs).2 = true := by
      simp only [expireSweep, List.any_eq_true]
      refine ⟨ts, hmem, ?_⟩
      simp only [isExpired, isControlling, Bool.and_eq_true, decide_eq_true_iff,
        Bool.or_eq_true, beq_iff_eq]
      exact ⟨hexp, hrole⟩
    unfold expirePhase
    dsimp only
    rw [if_pos hany]
  · intro h
    have hany : ¬ ((expireSweep reg nowMs).2 = true) := by
      simp only [expireSweep, List.any_eq_true, not_exists]
      rintro ts ⟨hmem, hts⟩
      simp only [isExpired, isControlling, Bool.and_eq_true, decide_eq_true_iff,
        Bool.or_eq_true, beq_iff_eq] at hts
      exact h ts hmem hts
    unfold expirePhase
    dsimp only
    rw [if_neg hany]

/-- Concrete expired controlling session for the C8 witness. -/
noncomputable def sEight : Session :=
  { role := Role.p1
    name := "E"
    input := iZero
    hasStream := true
    lastSeen := 0
    rateSec := 0
    rateCount := 0 }

/-- Witness for C8: a 40-second-idle primary session forces the reset. -/
theorem expiry_reset_witness :
    SESSION_TTL_MS < 40000 - sEight.lastSeen ∧
    (expirePhase initGame [("x", sEight)] 40000).1 = resetKickoff initGame Role.p1 :=
  ⟨by norm_num [SESSION_TTL_MS, sEight],
   (expiry_reset initGame [("x", sEight)] 40000).2.1
     ⟨("x", sEight), by simp, by norm_num [SESSION_TTL_MS, sEight], Or.inl rfl⟩⟩

open Classical in
/-- C5: after per-component clamping, an input vector of magnitude above 1
yields exactly the (possibly sprint-boosted) base speed 7.1, and a vector
of magnitude at most 1 yields the magnitude times that speed; the 1.35
boost applies exactly when sprint is requested and the magnitude exceeds
the 0.05 deadzone. -/
theorem applyMove_speed (p : Player) (inp : Input) (dt : ℝ) (mx mz l : ℝ)
    (hmx : mx = clamp inp.moveX (-1) 1) (hmz : mz = clamp inp.moveZ (-1) 1)
    (hl : l = Real.sqrt (mx ^ 2 + mz ^ 2)) :
    (1 < l →
      Real.sqrt ((applyMove p inp dt).vx ^ 2 + (applyMove p inp dt).vz ^ 2) =
        STYLE.speed * (if inp.sprint = true ∧ 0.05 < l then 1.35 else 1)) ∧
    (l ≤ 1 →
      Real.sqrt ((applyMove p inp dt).vx ^ 2 + (applyMove p inp dt).vz ^ 2) =
        l * (STYLE.speed * (if inp.sprint = true ∧ 0.05 < l then 1.35 else 1))) := by
  subst hl
  subst hmx
  subst hmz
  set A := clamp inp.moveX (-1) 1 with hA
  set B := clamp inp.moveZ (-1) 1 with hB
  set L := Real.sqrt (A ^ 2 + B ^ 2) with hLdef
  set SP := STYLE.speed *
    (if (inp.sprint && (if (0.05 : ℝ) < L then true else false)) = true then 1.35 else 1.0)
    with hSP
  have hvx : (applyMove p inp dt).vx = (if 1 < L then A / L else A) * SP := rfl
  have hvz : (applyMove p inp dt).vz = (if 1 < L then B / L else B) * SP := rfl
  have hsp0 : 0 ≤ SP := by
    rw [hSP]
    split_ifs <;> norm_num [STYLE]
  have hSPeq : SP = STYLE.speed * (if inp.sprint = true ∧ (0.05 : ℝ) < L then 1.35 else 1) := by
    rw [hSP]
    by_cases hs : inp.sprint <;> by_cases hd : (0.05 : ℝ) < L <;> simp [hs, hd] <;> norm_num
  refine ⟨fun h1 => ?_, fun h2 => ?_⟩
  · have hL0 : L ≠ 0 := ne_of_gt (lt_trans zero_lt_one h1)
    have hL2 : L ^ 2 = A ^ 2 + B ^ 2 := Real.sq_sqrt (by positivity)
    rw [hvx, hvz]
    simp only [if_pos h1]
    have hsum : (A / L * SP) ^ 2 + (B / L * SP) ^ 2 = SP ^ 2 := by
      have e1 : (A / L * SP) ^ 2 + (B / L * SP) ^ 2 = (A ^ 2 + B ^ 2) * (SP / L) ^ 2 := by
        ring
      rw [e1, ← hL2]
      field_simp
    rw [hsum, Real.sqrt_sq hsp0, hSPeq]
  · rw [hvx, hvz]
    simp only [if_neg (not_lt.mpr h2)]
    have hsum : (A * SP) ^ 2 + (B * SP) ^ 2 = (A ^ 2 + B ^ 2) * SP ^ 2 := by ring
    rw [hsum, Real.sqrt_mul (by positivity) (SP ^ 2), Real.sqrt_sq hsp0, hSPeq]

/-- Diagonal full-deflection input for the C5 witness. -/
noncomputable def inpFive : Input :=
  { moveX := 1, moveZ := 1, sprint := false, shoot := false, pass := false }

/-- Witness for C5 at the diagonal input of magnitude `sqrt 2 > 1`. -/
theorem applyMove_speed_witness :
    (1 : ℝ) < Real.sqrt 2 ∧
    Real.sqrt ((applyMove pSix inpFive 0).vx ^ 2 + (applyMove pSix inpFive 0).vz ^ 2) =
      STYLE.speed * (if inpFive.sprint = true ∧ (0.05 : ℝ) < Real.sqrt 2 then 1.35 else 1) := by
  have hs2 : (1 : ℝ) < Real.sqrt 2 := by
    rw [show (1 : ℝ) = Real.sqrt 1 by rw [Real.sqrt_one]]
    exact Real.sqrt_lt_sqrt (by norm_num) (by norm_num)
  have hmx : (1 : ℝ) = clamp inpFive.moveX (-1) 1 := by
    simp [clamp, inpFive]
  have hmz : (1 : ℝ) = clamp inpFive.moveZ (-1) 1 := by
    simp [clamp, inpFive]
  have hl : Real.sqrt 2 = Real.sqrt ((1 : ℝ) ^ 2 + (1 : ℝ) ^ 2) := by norm_num
  exact ⟨hs2, (applyMove_speed pSix inpFive 0 1 1 (Real.sqrt 2) hmx hmz hl).1 hs2⟩

/-- C4: a ball crossing a short edge inside the goal-mouth band scores
exactly one goal for the conceding side's opponent and resets the world
to the kickoff layout with the ball nudged toward the conceding half,
while a crossing outside the band reflects with restitution 0.8. -/
theorem goal_scoring (g : Game) (dt : ℝ) :
    ((bounceX (bounceZ (ballIntegrate g.ball dt))).x < -(FIELD.w / 2) →
     |(bounceX (bounceZ (ballIntegrate g.ball dt))).z| ≤ GOAL.halfH →
      updateBall g dt =
        resetKickoff { g with score := { g.score with p2 := g.score.p2 + 1 } } Role.p1) ∧
    (FIELD.w / 2 < (bounceX (bounceZ (ballIntegrate g.ball dt))).x →
     |(bounceX (bounceZ (ballIntegrate g.ball dt))).z| ≤ GOAL.halfH →
      updateBall g dt =
        resetKickoff { g with score := { g.score with p1 := g.score.p1 + 1 } } Role.p2) ∧
    (∀ b : Ball, b.x < -(FIELD.w / 2) → GOAL.halfH < |b.z| →
      bounceX b = { b with x := -(FIELD.w / 2), vx := |b.vx| * 0.8 }) ∧
    (∀ b : Ball, FIELD.w / 2 < b.x → GOAL.halfH < |b.z| →
      bounceX b = { b with x := FIELD.w / 2, vx := -|b.vx| * 0.8 }) := by
  refine ⟨fun h1 h2 => ?_, fun h1 h2 => ?_, fun b h1 h2 => ?_, fun b h1 h2 => ?_⟩
  · unfold updateBall
    dsimp only
    rw [if_pos ⟨h1, h2⟩]
  · unfold updateBall
    dsimp only
    rw [if_neg (by
      rintro ⟨hx, -⟩
      norm_num [FIELD] at hx h1
      linarith)]
    rw [if_pos ⟨h1, h2⟩]
  · unfold bounceX
    dsimp only
    have e1 : (if b.x < -(FIELD.w / 2) ∧ GOAL.halfH < |b.z| then
        { b with x := -(FIELD.w / 2), vx := |b.vx| * 0.8 } else b) =
        { b with x := -(FIELD.w / 2), vx := |b.vx| * 0.8 } := if_pos ⟨h1, h2⟩
    rw [e1]
    rw [if_neg (by
      rintro ⟨hx, -⟩
      norm_num [FIELD] at hx)]
  · unfold bounceX
    dsimp only
    have e1 : (if b.x < -(FIELD.w / 2) ∧ GOAL.halfH < |b.z| then
        { b with x := -(FIELD.w / 2), vx := |b.vx| * 0.8 } else b) = b := by
      apply if_neg
      rintro ⟨hx, -⟩
      norm_num [FIELD] at hx h1
      linarith
    rw [e1]
    rw [if_pos ⟨h1, h2⟩]

/-- Concrete state for the C4 witness: the ball one unit past the left
goal line, centered in the goal mouth, at rest. -/
noncomputable def gFour : Game :=
  { t := 0
    matchLeft := 360
    score := { p1 := 0, p2 := 0 }
    players :=
      { p1 := { name := "P1", x := -10, z := 0, vx := 0, vz := 0, rot := 0, hasBall := false }
        p2 := { name := "P2", x := 10, z := 0, vx := 0, vz := 0, rot := 0, hasBall := false } }
    ball := { x := -21, z := 0, vx := 0, vz := 0 } }

lemma gFour_ball_fixed : bounceX (bounceZ (ballIntegrate gFour.ball 0)) = gFour.ball := by
  have hint : ballIntegrate gFour.ball 0 = gFour.ball := by
    unfold ballIntegrate
    simp [gFour, Real.rpow_zero]
  rw [hint]
  have hz : bounceZ gFour.ball = gFour.ball := by
    unfold bounceZ
    rw [if_neg (by norm_num [gFour, FIELD])]
    rw [if_neg (by norm_num [gFour, FIELD])]
  rw [hz]
  unfold bounceX
  have e1 : (if gFour.ball.x < -(FIELD.w / 2) ∧ GOAL.halfH < |gFour.ball.z| then
      { gFour.ball with x := -(FIELD.w / 2), vx := |gFour.ball.vx| * 0.8 }
    else gFour.ball) = gFour.ball := by
    apply if_neg
    rintro ⟨-, hz2⟩
    norm_num [gFour, GOAL] at hz2
  rw [e1]
  rw [if_neg (by
    rintro ⟨hx, -⟩
    norm_num [gFour, FIELD] at hx)]

/-- Witness for C4: at `gFour` the left-goal branch fires with `dt = 0`. -/
theorem goal_scoring_witness :
    (bounceX (bounceZ (ballIntegrate gFour.ball 0))).x < -(FIELD.w / 2) ∧
    updateBall gFour 0 =
      resetKickoff { gFour with score := { gFour.score with p2 := gFour.score.p2 + 1 } }
        Role.p1 := by
  constructor
  · rw [gFour_ball_fixed]
    norm_num [gFour, FIELD]
  · exact (goal_scoring gFour 0).1
      (by rw [gFour_ball_fixed]; norm_num [gFour, FIELD])
      (by rw [gFour_ball_fixed]; norm_num [gFour, GOAL])

end Strikers
